import Mathlib

/-!
Verification development for the `owenjchen/ai-agent` example scripts
(`basic_agent.py`, `agent_with_tools.py`, `agent_with_guardrails.py`,
`agent_with_handoffs.py`).

The repository's own logic is shallow: guardrail wrapper functions, three
tool functions, environment-derived client configuration and two print
loops.  Each is embedded below as a Lean definition mirroring the Python
source, and the spec's claims are settled as theorems about those
definitions.
-/

/-- `hay` contains `needle` as a contiguous substring: there are
(character-list) strings `pre` and `post` with
`hay = pre ++ needle ++ post`. -/
def containsStr (hay needle : String) : Prop :=
  ∃ pre post : List Char, hay.data = pre ++ needle.data ++ post

/-! ## Environment-derived model-client configuration

All four scripts construct the same two objects (`basic_agent.py` lines
22-35, `agent_with_tools.py` lines 67-82, `agent_with_guardrails.py` lines
30-41, `agent_with_handoffs.py` lines 21-32): an `AsyncAzureOpenAI` client
from three environment variables, and an `OpenAIChatCompletionsModel`
pairing the deployment name with that client.  The process environment is
embedded as a function `String → Option String` (`os.getenv`); `none`
models an unset variable. -/

/-- The fields of the `AsyncAzureOpenAI(...)` call: `api_key`,
`api_version`, `azure_endpoint`.  A missing environment variable is passed
through as `none` (Python `None`); no validation happens. -/
structure AsyncAzureOpenAI where
  api_key : Option String
  api_version : String
  azure_endpoint : Option String
deriving DecidableEq, Repr

/-- The fields of the `OpenAIChatCompletionsModel(...)` call: the
deployment name as `model` and the client object. -/
structure OpenAIChatCompletionsModel where
  model : Option String
  openai_client : AsyncAzureOpenAI
deriving DecidableEq, Repr

/-- The configuration construction shared verbatim by all four scripts:
`os.getenv("AZURE_OPENAI_API_KEY")`,
`os.getenv("AZURE_OPENAI_API_VERSION", "2024-05-01-preview")`,
`os.getenv("AZURE_OPENAI_ENDPOINT")` for the client, and
`os.getenv("AZURE_OPENAI_DEPLOYMENT")` for the model wrapper. -/
def buildModelConfig (env : String → Option String) : OpenAIChatCompletionsModel :=
  { model := env "AZURE_OPENAI_DEPLOYMENT"
    openai_client :=
      { api_key := env "AZURE_OPENAI_API_KEY"
        api_version := (env "AZURE_OPENAI_API_VERSION").getD "2024-05-01-preview"
        azure_endpoint := env "AZURE_OPENAI_ENDPOINT" } }

/-- The four environment variable names the scripts read. -/
def envNames : List String :=
  ["AZURE_OPENAI_API_KEY", "AZURE_OPENAI_API_VERSION",
   "AZURE_OPENAI_ENDPOINT", "AZURE_OPENAI_DEPLOYMENT"]

/-! ## Guardrail wrappers (`agent_with_guardrails.py`)

The classifier agents produce `ContentSafetyOutput` / `HomeworkOutput`
values; the wrapper functions `content_safety_guardrail` (lines 66-73) and
`homework_guardrail` (lines 75-82) map such a value to a
`GuardrailFunctionOutput`.  The classifier run itself is external (a model
call), so the wrappers are embedded as functions of the classifier
result. -/

/-- Output schema of the content-safety classifier agent. -/
structure ContentSafetyOutput where
  is_safe : Bool
  reasoning : String
deriving DecidableEq, Repr

/-- Output schema of the homework classifier agent. -/
structure HomeworkOutput where
  is_homework : Bool
  reasoning : String
deriving DecidableEq, Repr

/-- The `GuardrailFunctionOutput(...)` record built by the wrappers. -/
structure GuardrailFunctionOutput (α : Type) where
  output_info : α
  tripwire_triggered : Bool
  message : Option String
deriving DecidableEq, Repr

/-- `content_safety_guardrail`, as a function of the classifier result
`final_output`: `tripwire_triggered = not final_output.is_safe` and
`message = f"Content safety check: {final_output.reasoning}" if not
final_output.is_safe else None`. -/
def content_safety_guardrail (final_output : ContentSafetyOutput) :
    GuardrailFunctionOutput ContentSafetyOutput :=
  { output_info := final_output
    tripwire_triggered := !final_output.is_safe
    message :=
      if !final_output.is_safe then
        some ("Content safety check: " ++ final_output.reasoning)
      else none }

/-- `homework_guardrail`, as a function of the classifier result
`final_output`: `tripwire_triggered = final_output.is_homework` and
`message = f"Homework policy: {final_output.reasoning}" if
final_output.is_homework else None`. -/
def homework_guardrail (final_output : HomeworkOutput) :
    GuardrailFunctionOutput HomeworkOutput :=
  { output_info := final_output
    tripwire_triggered := final_output.is_homework
    message :=
      if final_output.is_homework then
        some ("Homework policy: " ++ final_output.reasoning)
      else none }

/-! ## Tools (`agent_with_tools.py`) -/

/-- Input type of `fetch_weather` (`Location` TypedDict). -/
structure Location where
  city : String
  country : String
deriving DecidableEq, Repr

/-- Input type of `search_web` (`SearchQuery` TypedDict). -/
structure SearchQuery where
  query : String
deriving DecidableEq, Repr

/-- `fetch_weather` (lines 30-38): returns the fixed sunny-weather string
with the location's city and country interpolated. -/
def fetch_weather (location : Location) : String :=
  "The weather in " ++ location.city ++ ", " ++ location.country ++
    " is currently sunny with a temperature of 22°C."

/-- `search_web` (lines 40-48): returns the fixed top-results string with
the query interpolated. -/
def search_web (query : SearchQuery) : String :=
  "Here are the top results for '" ++ query.query ++
    "':\n1. Example result 1\n2. Example result 2\n3. Example result 3"

/-! ### `calculate` and its use of Python `eval`

`calculate` (lines 50-63) passes `expression` to `eval` inside a
`try`/`except`.  `eval` is a call into the external Python interpreter,
just as `Runner.run` is a call into the external orchestration library;
like the `run` parameter of the guardrails loop below, it is embedded as
a function parameter `ev : String → Except String Int`, where
`Except.ok r` is a successful evaluation to the integer `r` and
`Except.error msg` is a raised exception whose `str(e)` is `msg`.  The
theorems about `calculate` quantify over every such `ev`, so they hold
for the real interpreter's behaviour whenever it returns an integer or
raises.

`pyEval` below is a concrete model of CPython 3 `eval` used to
instantiate `ev` in the witnesses.  It covers the integer arithmetic
fragment: decimal literals without leading zeros (Python 3 rejects
`01`), unary `+`/`-`, binary `+`, `-`, `*`, parentheses and spaces, with
Python's precedence (unary above `*` above `+`/`-`) and left
associativity.  A string `pyEval` accepts is evaluated exactly as CPython
evaluates it; a `none` result marks either a genuine `SyntaxError` (such
as `"2+"`) or the boundary of the modelled fragment (e.g. `"2**3"`,
`"()"`, `"1_0"` lie outside it), which is why no theorem treats
`pyEval = none` as evidence that the interpreter raises. -/

/-- Tokens of an arithmetic expression: decimal literal, one of the
operator characters `+`, `-`, `*`, or a parenthesis. -/
inductive Tok where
  | num (n : Nat)
  | binop (o : Char)
  | lparen
  | rparen
deriving DecidableEq, Repr

/-- Lexer state: tokens emitted so far (reversed) and the digits of the
decimal literal currently being read, if any. -/
structure LexState where
  toks : List Tok
  cur : Option (List Char)
deriving Repr

/-- Numeric value of a digit sequence. -/
def digitsVal (ds : List Char) : Nat :=
  ds.foldl (fun acc c => acc * 10 + (c.toNat - 48)) 0

/-- Python 3 decimal-literal well-formedness: leading zeros are only
permitted when every digit is zero (`0`, `00` are legal; `01`, `007`
raise `SyntaxError`). -/
def validLit (ds : List Char) : Bool :=
  match ds with
  | [] => false
  | d :: _ => d != '0' || ds.all (fun c => c == '0')

/-- Flush a pending decimal literal into the token list; fails on a
literal Python 3 rejects. -/
def flushNum (st : LexState) : Option (List Tok) :=
  match st.cur with
  | some ds => if validLit ds then some (Tok.num (digitsVal ds) :: st.toks) else none
  | none => some st.toks

/-- Consume one character: extend a literal, or emit a token; any
character outside the arithmetic fragment fails. -/
def lexStep (st : LexState) (c : Char) : Option LexState :=
  if c.isDigit then
    some { toks := st.toks, cur := some ((st.cur.getD []) ++ [c]) }
  else
    match flushNum st with
    | none => none
    | some toks =>
      if c = ' ' then
        some { toks := toks, cur := none }
      else if c = '+' ∨ c = '-' ∨ c = '*' then
        some { toks := Tok.binop c :: toks, cur := none }
      else if c = '(' then
        some { toks := Tok.lparen :: toks, cur := none }
      else if c = ')' then
        some { toks := Tok.rparen :: toks, cur := none }
      else
        none

/-- Tokenize an expression string; `none` on any character outside the
arithmetic fragment or on an ill-formed literal. -/
def tokenize (s : String) : Option (List Tok) := do
  let st ← s.data.foldlM lexStep { toks := [], cur := none }
  let toks ← flushNum st
  pure toks.reverse

/-- Python operator precedence among the fragment's binary operators:
`*` binds tighter than `+` and `-`. -/
def prec (o : Char) : Nat :=
  if o = '*' then 2 else 1

/-- Apply a binary operator. -/
def applyBin (o : Char) (a b : Int) : Int :=
  if o = '+' then a + b
  else if o = '-' then a - b
  else a * b

/-- An entry of the operator stack: an open parenthesis, a binary
operator, or a unary `+`/`-`. -/
inductive OpEntry where
  | lpar
  | bin (o : Char)
  | una (o : Char)
deriving DecidableEq, Repr

/-- Stack-entry precedence: Python's unary `+`/`-` bind tighter than
`*`, which binds tighter than binary `+`/`-`; the parenthesis marker
stops every reduction. -/
def entryPrec : OpEntry → Nat
  | OpEntry.lpar => 0
  | OpEntry.bin o => prec o
  | OpEntry.una _ => 3

/-- Apply one stacked operator to the operand stack. -/
def applyEntry : OpEntry → List Int → Option (List Int)
  | OpEntry.bin o, b :: a :: vs => some (applyBin o a b :: vs)
  | OpEntry.una o, a :: vs => some ((if o = '-' then -a else a) :: vs)
  | _, _ => none

/-- Operator-precedence evaluator state: operand stack, operator stack
and whether an operand is expected next (rejects forms like `2 3` or
`2+`). -/
structure EvalState where
  operands : List Int
  ops : List OpEntry
  expectOperand : Bool
deriving Repr

/-- Pop and apply stacked operators of precedence at least `p`, stopping
at an open parenthesis; left associativity of Python's binary
operators. -/
def reduceGE (p : Nat) : List Int → List OpEntry → Option (List Int × List OpEntry)
  | vals, [] => some (vals, [])
  | vals, OpEntry.lpar :: rest => some (vals, OpEntry.lpar :: rest)
  | vals, e :: rest =>
    if p ≤ entryPrec e then
      match applyEntry e vals with
      | some vals' => reduceGE p vals' rest
      | none => none
    else
      some (vals, e :: rest)

/-- Pop and apply stacked operators down to (and removing) the matching
open parenthesis; `none` if there is no open parenthesis. -/
def reduceToParen : List Int → List OpEntry → Option (List Int × List OpEntry)
  | _, [] => none
  | vals, OpEntry.lpar :: rest => some (vals, rest)
  | vals, e :: rest =>
    match applyEntry e vals with
    | some vals' => reduceToParen vals' rest
    | none => none

/-- Process one token.  An operator character where an operand is
expected is Python's unary `+`/`-` (chains like `--5` are legal). -/
def evalStep (st : EvalState) (t : Tok) : Option EvalState :=
  match t with
  | Tok.num n =>
    if st.expectOperand then
      some { operands := (n : Int) :: st.operands, ops := st.ops, expectOperand := false }
    else none
  | Tok.binop o =>
    if st.expectOperand then
      if o = '+' ∨ o = '-' then
        some { operands := st.operands, ops := OpEntry.una o :: st.ops, expectOperand := true }
      else none
    else
      (reduceGE (prec o) st.operands st.ops).map
        fun vo => { operands := vo.1, ops := OpEntry.bin o :: vo.2, expectOperand := true }
  | Tok.lparen =>
    if st.expectOperand then
      some { operands := st.operands, ops := OpEntry.lpar :: st.ops, expectOperand := true }
    else none
  | Tok.rparen =>
    if st.expectOperand then none
    else
      (reduceToParen st.operands st.ops).map
        fun vo => { operands := vo.1, ops := vo.2, expectOperand := false }

/-- After the last token: an operand must have been supplied, all
operators applied, no parenthesis left open, and exactly one value
remain. -/
def evalFinish (st : EvalState) : Option Int :=
  if st.expectOperand then none
  else
    match reduceGE 1 st.operands st.ops with
    | some ([v], []) => some v
    | _ => none

/-- Concrete model of CPython 3 `eval` on the integer arithmetic
fragment (see the section comment): the evaluated value, or `none` for a
string outside the modelled fragment. -/
def pyEval (s : String) : Option Int := do
  let ts ← tokenize s
  let st ← ts.foldlM evalStep { operands := [], ops := [], expectOperand := true }
  evalFinish st

/-- `pyEval` packaged as an instantiation of the external-`eval`
parameter, with the failure text of CPython's `SyntaxError` for a
one-line `eval` input (`str(e)` at `"2+"` is
`"invalid syntax (<string>, line 1)"`). -/
def pyEvalExc (s : String) : Except String Int :=
  match pyEval s with
  | some r => Except.ok r
  | none => Except.error "invalid syntax (<string>, line 1)"

/-- `calculate` (lines 50-63): `try: result = eval(expression); return
f"The result of {expression} is {result}" except Exception as e: return
f"Error calculating {expression}: {str(e)}"`, with the external `eval`
call embedded as the parameter `ev`. -/
def calculate (ev : String → Except String Int) (expression : String) : String :=
  match ev expression with
  | Except.ok result => "The result of " ++ expression ++ " is " ++ toString result
  | Except.error e => "Error calculating " ++ expression ++ ": " ++ e

/-! ## The guardrails script's query loop (`agent_with_guardrails.py`,
lines 97-112)

`Runner.run(education_agent, query)` is a call into the external library;
its outcome per query is embedded as a function `run : String →
RunOutcome`, where `RunOutcome.exn` covers any raised exception — a
guardrail tripwire abort and a transport/runtime failure alike, since the
script's `except Exception as e` does not distinguish them. -/

/-- Outcome of one external `Runner.run` call: a final output, or a
raised exception carrying `str(e)`. -/
inductive RunOutcome where
  | ok (output : String)
  | exn (msg : String)
deriving DecidableEq, Repr

/-- The fixed query list of `agent_with_guardrails.py` (lines 98-102). -/
def guardrailQueries : List String :=
  ["Can you explain how photosynthesis works?",
   "Do my homework for me: solve x^2 + 5x + 6 = 0",
   "What are the key themes in Shakespeare's Macbeth?"]

/-- One iteration of the guardrails loop body (lines 104-112): print the
query and `Processing...`, then either the agent output or — from the
single generic `except Exception` handler — the `Guardrail triggered:`
message. -/
def guardrailIteration (run : String → RunOutcome) (query : String) : List String :=
  ["\nUser: " ++ query, "Processing..."] ++
    match run query with
    | RunOutcome.ok output => ["Agent: " ++ output]
    | RunOutcome.exn e => ["Guardrail triggered: " ++ e]

/-- The whole `for query in queries` loop, as the list of printed lines. -/
def guardrailLoop (run : String → RunOutcome) : List String :=
  (guardrailQueries.map (guardrailIteration run)).flatten

/-! ## The handoffs script's result printing (`agent_with_handoffs.py`,
lines 85-94)

`result.handoff_history` is accessed only behind
`hasattr(result, 'handoff_history') and result.handoff_history`; an
absent attribute or a `None` value is embedded as `none`, and Python
truthiness makes an empty history list falsy. -/

/-- An agent reference as used in the handoff entries (`.name`). -/
structure AgentRef where
  name : String
deriving DecidableEq, Repr

/-- One handoff record of `result.handoff_history`. -/
structure Handoff where
  from_agent : AgentRef
  to_agent : AgentRef
deriving DecidableEq, Repr

/-- The run result shape the handoffs script inspects: `final_output`
plus the optional `handoff_history` attribute (`none` = absent or
`None`). -/
structure HandoffRunResult where
  final_output : String
  handoff_history : Option (List Handoff)
deriving DecidableEq, Repr

/-- One numbered line of the handoff path printout:
`f"  {i+1}. {handoff.from_agent.name} → {handoff.to_agent.name}"`. -/
def handoffLine (i : Nat) (h : Handoff) : String :=
  "  " ++ toString (i + 1) ++ ". " ++ h.from_agent.name ++ " → " ++ h.to_agent.name

/-- The printing after one run (lines 89-94): the final output, then the
handoff path only when `handoff_history` is present and non-empty. -/
def printHandoffResult (result : HandoffRunResult) : List String :=
  ["Agent: " ++ result.final_output] ++
    match result.handoff_history with
    | some hs =>
      if hs.isEmpty then []
      else "\nHandoff Path:" :: hs.enum.map fun ih => handoffLine ih.1 ih.2
    | none => []

/-! ## Agent construction (`basic_agent.py`, lines 28-36)

The `Agent(...)` constructor is configuration data: a name, instruction
text and the model configuration (the other scripts add tools, guardrails
or handoff targets on top of the same shape).  Construction performs no
validation of the environment-derived values. -/

/-- The fields of the basic `Agent(...)` call. -/
structure Agent where
  name : String
  instructions : String
  model : OpenAIChatCompletionsModel
deriving DecidableEq, Repr

/-- The agent built by `basic_agent.py` from a given environment:
constructed unconditionally, with the environment-derived configuration
passed through. -/
def basicAgent (env : String → Option String) : Agent :=
  { name := "Assistant"
    instructions :=
      "You are a helpful assistant that provides concise and accurate information."
    model := buildModelConfig env }

/-! ## Helper lemmas -/

/-- String append concatenates the underlying character lists. -/
theorem strData_append (a b : String) : (a ++ b).data = a.data ++ b.data := rfl

/-- A string append is non-empty when its right part is. -/
theorem append_ne_empty_of_right (a b : String) (h : b.data ≠ []) : a ++ b ≠ "" := by
  intro he
  apply h
  have h0 : ("" : String).data = [] := rfl
  have hd := congrArg String.data he
  rw [strData_append, h0] at hd
  exact (List.append_eq_nil.mp hd).2

/-- A string append is non-empty when its left part is. -/
theorem append_ne_empty_of_left (a b : String) (h : a.data ≠ []) : a ++ b ≠ "" := by
  intro he
  apply h
  have h0 : ("" : String).data = [] := rfl
  have hd := congrArg String.data he
  rw [strData_append, h0] at hd
  exact (List.append_eq_nil.mp hd).1

/-- The agent-output line of the handoffs script never collides with the
`Handoff Path:` header line. -/
theorem agent_line_ne_path_header (x : String) : "Agent: " ++ x ≠ "\nHandoff Path:" := by
  intro h
  have hd := congrArg String.data h
  rw [strData_append] at hd
  rw [show "Agent: ".data = 'A' :: "gent: ".data from rfl] at hd
  rw [List.cons_append] at hd
  rw [show "\nHandoff Path:".data = '\n' :: "Handoff Path:".data from rfl] at hd
  injection hd with h1 _
  exact absurd h1 (by decide)

/-! ## Claims -/

/-- C1: For every classifier result, each guardrail wrapper
(`content_safety_guardrail` and `homework_guardrail`) reports
`tripwire_triggered = true` if and only if the underlying classification's
boolean flag indicates unsafe content (`is_safe = false`) or homework
content (`is_homework = true`) respectively, and sets `message` to a
non-empty string exactly when `tripwire_triggered` is true, and to none
otherwise. -/
theorem guardrail_tripwire_iff_flag (o : ContentSafetyOutput) (hw : HomeworkOutput) :
    ((content_safety_guardrail o).tripwire_triggered = true ↔ o.is_safe = false) ∧
    ((homework_guardrail hw).tripwire_triggered = true ↔ hw.is_homework = true) ∧
    ((content_safety_guardrail o).tripwire_triggered = true →
      ∃ m, (content_safety_guardrail o).message = some m ∧ m ≠ "") ∧
    ((content_safety_guardrail o).tripwire_triggered = false →
      (content_safety_guardrail o).message = none) ∧
    ((homework_guardrail hw).tripwire_triggered = true →
      ∃ m, (homework_guardrail hw).message = some m ∧ m ≠ "") ∧
    ((homework_guardrail hw).tripwire_triggered = false →
      (homework_guardrail hw).message = none) := by
  obtain ⟨safe, oreason⟩ := o
  obtain ⟨hwFlag, hreason⟩ := hw
  cases safe <;> cases hwFlag <;>
    refine ⟨by simp [content_safety_guardrail], by simp [homework_guardrail], ?_, ?_, ?_, ?_⟩ <;>
    simp [content_safety_guardrail, homework_guardrail] <;>
    exact append_ne_empty_of_left _ _ (by decide)

/-- Witness for C1 at concrete classifier results. -/
theorem guardrail_tripwire_iff_flag_witness :
    (content_safety_guardrail ⟨false, "offensive"⟩).tripwire_triggered = true ∧
    (∃ m, (content_safety_guardrail ⟨false, "offensive"⟩).message = some m ∧ m ≠ "") ∧
    (homework_guardrail ⟨false, "general"⟩).message = none :=
  ⟨(guardrail_tripwire_iff_flag ⟨false, "offensive"⟩ ⟨false, "general"⟩).1.mpr rfl,
   (guardrail_tripwire_iff_flag ⟨false, "offensive"⟩ ⟨false, "general"⟩).2.2.1 rfl,
   (guardrail_tripwire_iff_flag ⟨false, "offensive"⟩ ⟨false, "general"⟩).2.2.2.2.2 rfl⟩

/-- C10: For every classifier result, each guardrail wrapper passes the
classifier's structured output through unchanged as `output_info`:
`content_safety_guardrail`'s `output_info` equals the
`ContentSafetyOutput` produced by the classification run, and
`homework_guardrail`'s `output_info` equals the `HomeworkOutput` produced
by its run, with no field altered. -/
theorem guardrail_output_info_unchanged (o : ContentSafetyOutput) (hw : HomeworkOutput) :
    (content_safety_guardrail o).output_info = o ∧
    (homework_guardrail hw).output_info = hw :=
  ⟨rfl, rfl⟩

/-- C2: For every well-formed arithmetic expression given as input, the
`calculate` tool returns a string that contains the input expression and
the correctly evaluated numeric result — for every behaviour `ev` of the
external `eval` call, whenever `eval` returns the integer `r` the tool's
output embeds the expression and `str(r)` verbatim; in particular, for
input `"15 * 24 + 7"` (where the modelled evaluator, agreeing with
CPython, yields 367) the returned string contains `"367"`. -/
theorem calculate_wellformed (ev : String → Except String Int) (e : String) (r : Int)
    (h : ev e = Except.ok r) :
    calculate ev e = "The result of " ++ e ++ " is " ++ toString r ∧
    containsStr (calculate ev e) e ∧
    containsStr (calculate ev e) (toString r) := by
  have hc : calculate ev e = "The result of " ++ e ++ " is " ++ toString r := by
    unfold calculate
    rw [h]
  refine ⟨hc, ?_, ?_⟩
  · refine ⟨"The result of ".data, (" is " ++ toString r).data, ?_⟩
    rw [hc]
    simp [strData_append, List.append_assoc]
  · refine ⟨("The result of " ++ e ++ " is ").data, [], ?_⟩
    rw [hc]
    simp [strData_append, List.append_assoc]

/-- Witness for C2 at the script's sample input `"15 * 24 + 7"`, with
the external `eval` instantiated by the concrete arithmetic model, which
computes 367. -/
theorem calculate_wellformed_witness :
    pyEvalExc "15 * 24 + 7" = Except.ok 367 ∧
    containsStr (calculate pyEvalExc "15 * 24 + 7") "15 * 24 + 7" ∧
    containsStr (calculate pyEvalExc "15 * 24 + 7") "367" := by
  have h : pyEvalExc "15 * 24 + 7" = Except.ok 367 := rfl
  have hmain := calculate_wellformed pyEvalExc "15 * 24 + 7" 367 h
  refine ⟨h, hmain.2.1, ?_⟩
  rw [show "367" = toString (367 : Int) from rfl]
  exact hmain.2.2

/-- C3: For every malformed input expression (e.g., `"2+"`), the
`calculate` tool never raises an exception to its caller: for every
behaviour `ev` of the external `eval` call, whenever `eval` raises with
text `msg` the failure is caught inside the tool function (`calculate`
is a total function into `String`) and converted into the returned
error-describing string `"Error calculating {expression}: {msg}"`, which
names the input expression. -/
theorem calculate_malformed (ev : String → Except String Int) (e msg : String)
    (h : ev e = Except.error msg) :
    calculate ev e = "Error calculating " ++ e ++ ": " ++ msg ∧
    containsStr (calculate ev e) e ∧
    containsStr (calculate ev e) "Error calculating " := by
  have hc : calculate ev e = "Error calculating " ++ e ++ ": " ++ msg := by
    unfold calculate
    rw [h]
  refine ⟨hc, ?_, ?_⟩
  · refine ⟨"Error calculating ".data, (": " ++ msg).data, ?_⟩
    rw [hc]
    simp [strData_append, List.append_assoc]
  · refine ⟨[], (e ++ ": " ++ msg).data, ?_⟩
    rw [hc]
    simp [strData_append, List.append_assoc]

/-- Witness for C3 at the malformed input `"2+"`, a genuine CPython
`SyntaxError`, with the external `eval` instantiated by the concrete
arithmetic model carrying that error's text. -/
theorem calculate_malformed_witness :
    pyEvalExc "2+" = Except.error "invalid syntax (<string>, line 1)" ∧
    calculate pyEvalExc "2+" =
      "Error calculating " ++ "2+" ++ ": " ++ "invalid syntax (<string>, line 1)" ∧
    containsStr (calculate pyEvalExc "2+") "2+" := by
  have h : pyEvalExc "2+" = Except.error "invalid syntax (<string>, line 1)" := rfl
  have hmain := calculate_malformed pyEvalExc "2+" "invalid syntax (<string>, line 1)" h
  exact ⟨h, hmain.1, hmain.2.1⟩

/-- C4: In all four scripts, the model-client configuration object built
at startup contains exactly the four environment-derived fields
`AZURE_OPENAI_API_KEY`, `AZURE_OPENAI_API_VERSION`,
`AZURE_OPENAI_ENDPOINT` and `AZURE_OPENAI_DEPLOYMENT` — formalised as:
the configuration is determined by the environment's values at exactly
those four names, and each of its four fields is derived from the
corresponding variable — and for every environment in which
`AZURE_OPENAI_API_VERSION` is unset the version field equals
`"2024-05-01-preview"`. -/
theorem modelConfig_exactly_four_env_fields :
    (∀ env env' : String → Option String,
      (∀ n, n ∈ envNames → env n = env' n) →
      buildModelConfig env = buildModelConfig env') ∧
    (∀ env : String → Option String,
      (buildModelConfig env).model = env "AZURE_OPENAI_DEPLOYMENT" ∧
      (buildModelConfig env).openai_client.api_key = env "AZURE_OPENAI_API_KEY" ∧
      (buildModelConfig env).openai_client.api_version =
        (env "AZURE_OPENAI_API_VERSION").getD "2024-05-01-preview" ∧
      (buildModelConfig env).openai_client.azure_endpoint = env "AZURE_OPENAI_ENDPOINT") ∧
    (∀ env : String → Option String,
      env "AZURE_OPENAI_API_VERSION" = none →
      (buildModelConfig env).openai_client.api_version = "2024-05-01-preview") := by
  refine ⟨?_, ?_, ?_⟩
  · intro env env' hag
    have h1 := hag "AZURE_OPENAI_API_KEY" (by simp [envNames])
    have h2 := hag "AZURE_OPENAI_API_VERSION" (by simp [envNames])
    have h3 := hag "AZURE_OPENAI_ENDPOINT" (by simp [envNames])
    have h4 := hag "AZURE_OPENAI_DEPLOYMENT" (by simp [envNames])
    simp [buildModelConfig, h1, h2, h3, h4]
  · intro env
    exact ⟨rfl, rfl, rfl, rfl⟩
  · intro env hv
    simp [buildModelConfig, hv]

/-- Witness for C4: two concrete environments agreeing on the four names
yield the same configuration, and an empty environment yields the default
version. -/
theorem modelConfig_exactly_four_env_fields_witness :
    buildModelConfig (fun n => some n) =
      buildModelConfig (fun n => if n ∈ envNames then some n else none) ∧
    (buildModelConfig (fun _ => none)).openai_client.api_version = "2024-05-01-preview" :=
  ⟨modelConfig_exactly_four_env_fields.1 _ _
      (by intro n hn; fin_cases hn <;> rfl),
   modelConfig_exactly_four_env_fields.2.2 _ rfl⟩

/-- C7: For every environment in which any of `AZURE_OPENAI_API_KEY`,
`AZURE_OPENAI_ENDPOINT` or `AZURE_OPENAI_DEPLOYMENT` is unset, every
script still constructs its client and agent objects without performing
any local validation or raising a local configuration error — the
construction functions are total, so the client and agent records exist
for every environment — and the missing value is passed through unchanged
(as `none`) to the external client. -/
theorem missing_env_passed_through (env : String → Option String) :
    basicAgent env =
      { name := "Assistant"
        instructions :=
          "You are a helpful assistant that provides concise and accurate information."
        model := buildModelConfig env } ∧
    ((basicAgent env).model.openai_client.api_key = env "AZURE_OPENAI_API_KEY" ∧
     (basicAgent env).model.openai_client.azure_endpoint = env "AZURE_OPENAI_ENDPOINT" ∧
     (basicAgent env).model.model = env "AZURE_OPENAI_DEPLOYMENT") ∧
    (env "AZURE_OPENAI_API_KEY" = none →
      (basicAgent env).model.openai_client.api_key = none) ∧
    (env "AZURE_OPENAI_ENDPOINT" = none →
      (basicAgent env).model.openai_client.azure_endpoint = none) ∧
    (env "AZURE_OPENAI_DEPLOYMENT" = none →
      (basicAgent env).model.model = none) := by
  refine ⟨rfl, ⟨rfl, rfl, rfl⟩, ?_, ?_, ?_⟩ <;>
    intro h <;> simp [basicAgent, buildModelConfig, h]

/-- Witness for C7 at the fully unset environment. -/
theorem missing_env_passed_through_witness :
    (basicAgent (fun _ => none)).model.openai_client.api_key = none ∧
    (basicAgent (fun _ => none)).model.openai_client.azure_endpoint = none ∧
    (basicAgent (fun _ => none)).model.model = none :=
  ⟨(missing_env_passed_through (fun _ => none)).2.2.1 rfl,
   (missing_env_passed_through (fun _ => none)).2.2.2.1 rfl,
   (missing_env_passed_through (fun _ => none)).2.2.2.2 rfl⟩

/-- C5: In the guardrails script, for every query in the fixed query
list, any exception raised by the run call (whether a guardrail tripwire
abort or a transport/runtime failure, undifferentiated — both are
`RunOutcome.exn`) is caught by the single generic exception handler that
prints a message, and the loop then proceeds to the next query: every
query's lines appear in the loop output no matter what the run outcomes
are. -/
theorem guardrail_loop_catches_and_continues (run : String → RunOutcome) :
    (∀ q, q ∈ guardrailQueries → ("\nUser: " ++ q) ∈ guardrailLoop run) ∧
    (∀ q e, q ∈ guardrailQueries → run q = RunOutcome.exn e →
      guardrailIteration run q =
        ["\nUser: " ++ q, "Processing...", "Guardrail triggered: " ++ e] ∧
      ("Guardrail triggered: " ++ e) ∈ guardrailLoop run) := by
  constructor
  · intro q hq
    refine List.mem_flatten.mpr ⟨guardrailIteration run q, List.mem_map_of_mem _ hq, ?_⟩
    cases run q <;> simp [guardrailIteration]
  · intro q e hq hrun
    have hit : guardrailIteration run q =
        ["\nUser: " ++ q, "Processing...", "Guardrail triggered: " ++ e] := by
      simp [guardrailIteration, hrun]
    refine ⟨hit, List.mem_flatten.mpr ⟨guardrailIteration run q, List.mem_map_of_mem _ hq, ?_⟩⟩
    rw [hit]
    simp

/-- Witness for C5: a run function that always raises; the homework query
still yields a caught-and-printed message and the later query is still
processed. -/
theorem guardrail_loop_catches_and_continues_witness :
    guardrailIteration (fun _ => RunOutcome.exn "tripwire")
        "Do my homework for me: solve x^2 + 5x + 6 = 0" =
      ["\nUser: " ++ "Do my homework for me: solve x^2 + 5x + 6 = 0",
       "Processing...", "Guardrail triggered: " ++ "tripwire"] ∧
    ("\nUser: " ++ "What are the key themes in Shakespeare's Macbeth?") ∈
      guardrailLoop (fun _ => RunOutcome.exn "tripwire") :=
  ⟨((guardrail_loop_catches_and_continues (fun _ => RunOutcome.exn "tripwire")).2
      "Do my homework for me: solve x^2 + 5x + 6 = 0" "tripwire"
      (by simp [guardrailQueries]) rfl).1,
   (guardrail_loop_catches_and_continues (fun _ => RunOutcome.exn "tripwire")).1
      "What are the key themes in Shakespeare's Macbeth?" (by simp [guardrailQueries])⟩

/-- C6: In the handoffs script, for every run result, the handoff
transfer path is printed if and only if the result has a
`handoff_history` attribute and that history is non-empty; when the
attribute is absent (or `None`) or empty the script prints only the final
output and never fails on accessing the missing attribute
(`printHandoffResult` is total and never inspects the history outside the
guard). -/
theorem handoff_path_printed_iff (result : HandoffRunResult) :
    (("\nHandoff Path:") ∈ printHandoffResult result ↔
      ∃ hs, result.handoff_history = some hs ∧ hs ≠ []) ∧
    ((result.handoff_history = none ∨ result.handoff_history = some []) →
      printHandoffResult result = ["Agent: " ++ result.final_output]) := by
  obtain ⟨out, hist⟩ := result
  constructor
  · cases hist with
    | none =>
      simp only [printHandoffResult]
      simp only [List.append_nil]
      constructor
      · intro hmem
        rcases List.mem_singleton.mp hmem with h
        exact absurd h.symm (agent_line_ne_path_header out)
      · rintro ⟨hs, hcontra, -⟩
        exact Option.noConfusion hcontra
    | some hs =>
      cases hs with
      | nil =>
        simp only [printHandoffResult, List.isEmpty_nil, if_true, List.append_nil]
        constructor
        · intro hmem
          rcases List.mem_singleton.mp hmem with h
          exact absurd h.symm (agent_line_ne_path_header out)
        · rintro ⟨hs', heq, hne⟩
          exact absurd (Option.some.inj heq).symm hne
      | cons h0 hrest =>
        simp only [printHandoffResult, List.isEmpty_cons, if_false]
        constructor
        · intro _
          exact ⟨h0 :: hrest, rfl, List.cons_ne_nil h0 hrest⟩
        · intro _
          exact List.mem_append_right _ (List.mem_cons_self _ _)
  · rintro (h | h) <;> rw [show hist = HandoffRunResult.handoff_history ⟨out, hist⟩ from rfl, h] <;>
      simp [printHandoffResult]

/-- Witness for C6: a result without history prints only the final
output; a result with a one-element history prints the path header. -/
theorem handoff_path_printed_iff_witness :
    printHandoffResult ⟨"x = 5", none⟩ = ["Agent: " ++ "x = 5"] ∧
    ("\nHandoff Path:") ∈ printHandoffResult
      ⟨"x = 5", some [⟨⟨"Education Assistant"⟩, ⟨"Math Tutor"⟩⟩]⟩ :=
  ⟨(handoff_path_printed_iff ⟨"x = 5", none⟩).2 (Or.inl rfl),
   (handoff_path_printed_iff
      ⟨"x = 5", some [⟨⟨"Education Assistant"⟩, ⟨"Math Tutor"⟩⟩]⟩).1.mpr
      ⟨[⟨⟨"Education Assistant"⟩, ⟨"Math Tutor"⟩⟩], rfl, by simp⟩⟩

/-- C9: For every input, each of the `fetch_weather` and `search_web`
tools is a pure total function that never raises (both are total Lean
functions into `String`) and returns a non-empty string embedding its
input fields verbatim: `fetch_weather`'s result contains the given city
and country, and `search_web`'s result contains the given query string. -/
theorem simple_tools_total_and_embed_inputs (location : Location) (query : SearchQuery) :
    fetch_weather location ≠ "" ∧
    containsStr (fetch_weather location) location.city ∧
    containsStr (fetch_weather location) location.country ∧
    search_web query ≠ "" ∧
    containsStr (search_web query) query.query := by
  refine ⟨?_, ?_, ?_, ?_, ?_⟩
  · exact append_ne_empty_of_right _ _ (by decide)
  · refine ⟨"The weather in ".data,
      (", " ++ location.country ++
        " is currently sunny with a temperature of 22°C.").data, ?_⟩
    simp [fetch_weather, strData_append, List.append_assoc]
  · refine ⟨("The weather in " ++ location.city ++ ", ").data,
      " is currently sunny with a temperature of 22°C.".data, ?_⟩
    simp [fetch_weather, strData_append, List.append_assoc]
  · exact append_ne_empty_of_right _ _ (by decide)
  · refine ⟨"Here are the top results for '".data,
      ("':\n1. Example result 1\n2. Example result 2\n3. Example result 3").data, ?_⟩
    simp [search_web, strData_append, List.append_assoc]

/-- Witness for C9 at the script's sample location and query. -/
theorem simple_tools_total_and_embed_inputs_witness :
    fetch_weather ⟨"London", "UK"⟩ ≠ "" ∧
    containsStr (fetch_weather ⟨"London", "UK"⟩) "London" ∧
    containsStr (search_web ⟨"renewable energy"⟩) "renewable energy" :=
  ⟨(simple_tools_total_and_embed_inputs ⟨"London", "UK"⟩ ⟨"renewable energy"⟩).1,
   (simple_tools_total_and_embed_inputs ⟨"London", "UK"⟩ ⟨"renewable energy"⟩).2.1,
   (simple_tools_total_and_embed_inputs ⟨"London", "UK"⟩ ⟨"renewable energy"⟩).2.2.2.2⟩
